import Mathlib

/-!
Shallow embedding of the Bantah identity-bridging, wallet and notification
core, translated from `src/server/privyAuth.ts`, `src/client/src/pages/WalletPage.tsx`,
the notification route handlers, and the client challenge-card mutations.
Strings model JavaScript strings; `Option String` models possibly-absent
string fields; `Rat` models the decimal money quantities.  JavaScript
truthiness on strings (the empty string is falsy) is modelled by `truthyStr`.
-/

namespace Bantah

/-- JavaScript truthiness on an optional string: `undefined`/`null` and the
empty string are falsy. -/
def truthyStr : Option String → Option String
  | some s => if s = "" then none else some s
  | none => none

/-- JavaScript `a || b` on optional strings: yields `a` when truthy, else `b`. -/
def jsOr (a b : Option String) : Option String :=
  match truthyStr a with
  | some s => some s
  | none => b

/-- JavaScript `a || d` where the fallback is a plain string. -/
def jsOrStr (a : Option String) (d : String) : String :=
  match truthyStr a with
  | some s => s
  | none => d

/-- JavaScript `s.slice(-n)`: the last `n` characters (the whole string when
shorter). -/
def sliceLast (s : String) (n : Nat) : String :=
  String.mk (s.toList.drop (s.toList.length - n))

/-- JavaScript `email.split('@')[0]` at the character level: the characters
before the first `@` (the whole string when there is none). -/
def localPartChars (l : List Char) : List Char :=
  l.takeWhile (fun c => c ≠ '@')

/-- JavaScript `email.split('@')[0]`. -/
def localPart (e : String) : String :=
  String.mk (localPartChars e.toList)

/-- Removal of the first occurrence of `pat` from a character list. -/
def removeFirstOcc (pat : List Char) : List Char → List Char
  | [] => []
  | c :: cs =>
    if pat.isPrefixOf (c :: cs) then (c :: cs).drop pat.length
    else c :: removeFirstOcc pat cs

/-- JavaScript `s.replace(pat, '')` with a string pattern: removes the first
occurrence of `pat` only. -/
def replaceFirst (s pat : String) : String :=
  String.mk (removeFirstOcc pat.toList s.toList)

/-- Splitting a character list into its maximal runs of alphanumeric
characters: JavaScript `local.split(/[^a-z0-9]+/i).filter(Boolean)`. -/
def tokenizeAux : List Char → List Char → List (List Char)
  | [], acc => if acc.isEmpty then [] else [acc.reverse]
  | c :: cs, acc =>
    if c.isAlphanum then tokenizeAux cs (c :: acc)
    else if acc.isEmpty then tokenizeAux cs []
    else acc.reverse :: tokenizeAux cs []

/-- The alphanumeric tokens of a character list. -/
def emailTokensChars (l : List Char) : List (List Char) :=
  tokenizeAux l []

/-- The alphanumeric tokens of the local-part, as strings. -/
def emailTokens (s : String) : List String :=
  (emailTokensChars s.toList).map String.mk

/-- Translation of `getInitialsFromEmail` (src/server/privyAuth.ts, lines 26-39). -/
def getInitialsFromEmail (email : Option String) : String :=
  match email with
  | none => ""
  | some e =>
    if e = "" then ""
    else
      match emailTokensChars (localPartChars e.toList) with
      | p0 :: p1 :: _ => String.mk ([p0.headD 'A', p1.headD 'A'].map Char.toUpper)
      | [p] => String.mk ((p.take 2).map Char.toUpper)
      | [] => ""

/-- The initials rule as the specification words it: split the local-part on
runs of non-alphanumeric characters; with two or more tokens, the uppercased
first letters of the first two tokens; with one token, its first two
characters uppercased; empty string when there is no local-part or no email. -/
def initialsSpec (email : Option String) : String :=
  match email with
  | none => ""
  | some e =>
    let tokens := emailTokensChars (localPartChars e.toList)
    if tokens.length ≥ 2 then
      String.mk (((tokens.take 2).map (fun t => t.headD 'A')).map Char.toUpper)
    else if tokens.length = 1 then
      String.mk (((tokens.headD []).take 2).map Char.toUpper)
    else ""

/-- A row of the users table, restricted to the columns this flow touches. -/
structure StoredUser where
  id : String
  email : String
  password : String
  firstName : String
  lastName : String
  username : String
  profileImageUrl : Option String
  telegramId : Option String
  telegramUsername : Option String
  isTelegramUser : Bool
  isAdmin : Bool
deriving DecidableEq, Repr

/-- The user store, ordered list of rows. -/
abbrev Db := List StoredUser

/-- Modelled from the spec: `storage.getUser` (the storage module is not in
the source slice) — lookup of a user row by identifier. -/
def getUser (db : Db) (uid : String) : Option StoredUser :=
  db.find? (fun u => u.id == uid)

/-- Modelled from the spec: `storage.getUserByEmail` — lookup of a user row
by email. -/
def getUserByEmail (db : Db) (email : String) : Option StoredUser :=
  db.find? (fun u => u.email == email)

/-- Modelled from the spec: `storage.upsertUser` — per the glossary an
update-if-exists-else-insert against the user store, returning the stored row. -/
def storageUpsertUser (db : Db) (u : StoredUser) : StoredUser × Db :=
  if db.any (fun v => v.id == u.id) then
    (u, db.map (fun v => if v.id == u.id then u else v))
  else
    (u, u :: db)

/-- The field update performed by the Telegram linkage write. -/
def applyTelegram (u : StoredUser) (tid tun : String) : StoredUser :=
  { u with telegramId := some tid, telegramUsername := some tun, isTelegramUser := true }

/-- Modelled from the spec: `storage.updateUserTelegramInfo` — writes the
Telegram linkage fields on the user row with the given id and returns the
updated row. -/
def updateUserTelegramInfo (db : Db) (uid tid tun : String) : Option StoredUser × Db :=
  let db1 := db.map (fun v => if v.id == uid then applyTelegram v tid tun else v)
  (db1.find? (fun v => v.id == uid), db1)

/-- A linked external account inside the verified claims. -/
structure LinkedAccount where
  type : String
  telegramUserId : Option String
  telegramUsername : Option String
deriving DecidableEq, Repr

/-- The claims object produced by the identity-provider bridge. -/
structure VerifiedClaims where
  userId : Option String
  sub : Option String
  email : Option String
  given_name : Option String
  name : Option String
  family_name : Option String
  picture : Option String
  linkedAccounts : Option (List LinkedAccount)
deriving DecidableEq, Repr

/-- JavaScript `verifiedClaims.linkedAccounts.find(a => a.type === 'telegram')`. -/
def firstTelegramAccount (c : VerifiedClaims) : Option LinkedAccount :=
  match c.linkedAccounts with
  | none => none
  | some accs => accs.find? (fun a => a.type == "telegram")

/-- The Telegram linkage step of `upsertPrivyUser`
(src/server/privyAuth.ts, lines 83-98): when the claims carry a telegram-typed
linked account with a truthy `telegramUserId` and the resolved user has no
`telegramId` yet, write id, username (fallback `tg_<id>`) and the linked flag. -/
def telegramStep (c : VerifiedClaims) (uid : String) (u : StoredUser) (db : Db) :
    Option (StoredUser × Db) :=
  match firstTelegramAccount c with
  | none => some (u, db)
  | some acc =>
    match truthyStr acc.telegramUserId with
    | none => some (u, db)
    | some tid =>
      match truthyStr u.telegramId with
      | some _ => some (u, db)
      | none =>
        let tun := jsOrStr acc.telegramUsername ("tg_" ++ tid)
        match updateUserTelegramInfo db uid tid tun with
        | (some u1, db1) => some (u1, db1)
        | (none, _) => none

/-- JavaScript `verifiedClaims.email || userId + '@privy.user'`. -/
def claimsEmail (c : VerifiedClaims) (uid : String) : String :=
  jsOrStr c.email (uid ++ "@privy.user")

/-- JavaScript `verifiedClaims.email?.split('@')[0] || 'user_' + userId.slice(-8)`. -/
def usernameFromClaims (c : VerifiedClaims) (uid : String) : String :=
  jsOrStr (c.email.map localPart) ("user_" ++ sliceLast uid 8)

/-- The user row constructed on the creation path of `upsertPrivyUser`
(src/server/privyAuth.ts, lines 67-79); columns the insert does not set take
their defaults. -/
def newUserFromClaims (c : VerifiedClaims) (uid email : String) : StoredUser :=
  { id := uid
    email := email
    password := "PRIVY_AUTH_USER"
    firstName := jsOrStr c.given_name
      (jsOrStr c.name (jsOrStr (some (getInitialsFromEmail c.email)) "User"))
    lastName := jsOrStr c.family_name "User"
    username := usernameFromClaims c uid
    profileImageUrl := c.picture
    telegramId := none
    telegramUsername := none
    isTelegramUser := false
    isAdmin := false }

/-- Translation of `upsertPrivyUser` (src/server/privyAuth.ts, lines 54-105):
resolve by id, else reconcile by (possibly synthetic) email — an early return
that skips the Telegram step — else create; the Telegram linkage step runs on
the id-resolved or newly created user.  `none` models the call failing to
produce a user. -/
def upsertPrivyUser (c : VerifiedClaims) (db : Db) : Option (StoredUser × Db) :=
  match jsOr c.userId c.sub with
  | none => none
  | some uid =>
    match getUser db uid with
    | some u => telegramStep c uid u db
    | none =>
      let email := claimsEmail c uid
      match getUserByEmail db email with
      | some u => some (u, db)
      | none =>
        let created := storageUpsertUser db (newUserFromClaims c uid email)
        telegramStep c uid created.1 created.2

/-- The normalized identity attached to the request context. -/
structure ReqIdentity where
  id : String
  email : String
  firstName : String
  lastName : String
  username : String
  isAdmin : Bool
deriving DecidableEq, Repr

/-- The identity object built from a user row
(src/server/privyAuth.ts, lines 147-160). -/
def identityOf (u : StoredUser) : ReqIdentity :=
  { id := u.id, email := u.email, firstName := u.firstName, lastName := u.lastName
    username := u.username, isAdmin := u.isAdmin }

/-- Terminal outcome of the middleware: proceed with an attached identity, or
respond with a status code and message. -/
inductive AuthDecision
  | accept (ident : ReqIdentity)
  | reject (status : Nat) (message : String)
deriving DecidableEq, Repr

/-- Result of one call to the user-upsert collaborator, carrying the user
store as left by that call: a resolved user, a falsy result, or a thrown
error. -/
inductive UpsertOutcome
  | ok (u : StoredUser) (db : Db)
  | noUser (db : Db)
  | threw (db : Db)

/-- The inbound-request facts the middleware inspects. -/
structure AuthRequest where
  authHeader : Option String
  isAuthenticated : Bool
  sessionUser : Option ReqIdentity
deriving DecidableEq, Repr

/-- The token-verification phase of the middleware
(src/server/privyAuth.ts, lines 129-166), parameterized by the identity
provider bridge `verify` and the upsert collaborator. -/
def tokenPhase (verify : String → Option VerifiedClaims)
    (upsert : VerifiedClaims → Db → UpsertOutcome)
    (h : String) (db : Db) : AuthDecision × Db :=
  match verify (replaceFirst h "Bearer ") with
  | none => (.reject 401 "Invalid token or user ID not found", db)
  | some c =>
    match truthyStr (jsOr c.userId c.sub) with
    | none => (.reject 401 "Invalid token or user ID not found", db)
    | some _ =>
      match upsert c db with
      | .threw db1 => (.reject 500 "Internal server error during authentication", db1)
      | .noUser db1 => (.reject 500 "Failed to create or retrieve user", db1)
      | .ok u db1 => (.accept (identityOf u), db1)

/-- Translation of `PrivyAuthMiddleware` (src/server/privyAuth.ts, lines
107-167): session fallback when no bearer header is present, 401 when neither
credential exists, then the token phase. -/
def PrivyAuthMiddleware (verify : String → Option VerifiedClaims)
    (upsert : VerifiedClaims → Db → UpsertOutcome)
    (req : AuthRequest) (db : Db) : AuthDecision × Db :=
  match truthyStr req.authHeader with
  | none =>
    if req.isAuthenticated then
      match req.sessionUser with
      | some su => (.accept su, db)
      | none => (.reject 401 "Authorization header missing", db)
    else (.reject 401 "Authorization header missing", db)
  | some h => tokenPhase verify upsert h db

/-- The concrete upsert collaborator the middleware is wired to: the pure
model of `upsertPrivyUser` never throws, and a falsy return leaves the store
as the call left it. -/
def upsertOutcomeOf (c : VerifiedClaims) (db : Db) : UpsertOutcome :=
  match upsertPrivyUser c db with
  | some (u, db1) => .ok u db1
  | none => .noUser db

/-- The middleware as deployed, with the real upsert collaborator. -/
def runPrivyAuthMiddleware (verify : String → Option VerifiedClaims)
    (req : AuthRequest) (db : Db) : AuthDecision × Db :=
  PrivyAuthMiddleware verify upsertOutcomeOf req db

/-- Tag on a transaction record. -/
inductive TxnTag
  | deposit
  | withdrawal
  | swapLeg
  | challengeEscrow
  | escrowReversal
deriving DecidableEq, Repr

/-- An append-only transaction record: signed amount and tag. -/
structure Txn where
  amount : Rat
  tag : TxnTag
deriving DecidableEq, Repr

/-- A per-user wallet: primary balance, coin balance, transaction history
(newest first). -/
structure WalletState where
  balance : Rat
  coins : Rat
  transactions : List Txn
deriving DecidableEq, Repr

/-- What the client withdraw handler does: issue the request or reject. -/
inductive WithdrawAction
  | submit (amount : Rat)
  | rejectInvalidAmount
deriving DecidableEq, Repr

/-- Translation of `handleWithdraw` (src/client/src/pages/WalletPage.tsx,
lines 231-244): submit only when the amount is positive and at most the
current primary balance; otherwise show the invalid-amount rejection and
issue no request. -/
def handleWithdraw (amount currentBalance : Rat) : WithdrawAction :=
  if 0 < amount ∧ amount ≤ currentBalance then .submit amount
  else .rejectInvalidAmount

/-- Modelled from the spec: the server-side wallet withdraw handler is not in
the source slice.  Spec 4.4: amount must be positive and must not exceed the
current primary balance; decreases the primary balance; writes a Transaction
tagged withdrawal; rejects with an insufficient-funds condition otherwise. -/
def walletWithdraw (w : WalletState) (amount : Rat) : Option WalletState :=
  if 0 < amount ∧ amount ≤ w.balance then
    some { balance := w.balance - amount
           coins := w.coins
           transactions := ⟨-amount, .withdrawal⟩ :: w.transactions }
  else none

/-- Client guard followed by the server withdraw; `false` means no request
was issued or the server rejected, and the wallet is unchanged. -/
def withdrawFlow (w : WalletState) (amount : Rat) : WalletState × Bool :=
  match handleWithdraw amount w.balance with
  | .submit a =>
    match walletWithdraw w a with
    | some w1 => (w1, true)
    | none => (w, false)
  | .rejectInvalidAmount => (w, false)

/-- The two swap directions of the wallet page. -/
inductive SwapDirection
  | moneyToCoins
  | coinsToMoney
deriving DecidableEq, Repr

/-- What the client swap handler does: issue the request (with the currency
tags it sends) or reject with one of its three conditions. -/
inductive SwapAction
  | submit (amount : Rat) (fromCurrency toCurrency : String)
  | rejectInvalidAmount
  | rejectInsufficientBalance
  | rejectInsufficientCoins
deriving DecidableEq, Repr

/-- Translation of `handleSwap` (src/client/src/pages/WalletPage.tsx, lines
246-280): non-positive amounts are invalid; a money-to-coins swap above the
primary balance and a coins-to-money swap above the coin balance are
insufficient; otherwise the request is issued with the direction's currency
pair. -/
def handleSwap (amount currentBalance currentCoins : Rat) (dir : SwapDirection) :
    SwapAction :=
  if amount ≤ 0 then .rejectInvalidAmount
  else if dir = .moneyToCoins ∧ currentBalance < amount then .rejectInsufficientBalance
  else if dir = .coinsToMoney ∧ currentCoins < amount then .rejectInsufficientCoins
  else
    match dir with
    | .moneyToCoins => .submit amount "money" "coins"
    | .coinsToMoney => .submit amount "coins" "money"

/-- The fixed exchange rate: 1 primary-currency unit = 10 coin units. -/
def swapRate : Rat := 10

/-- Modelled from the spec: the server-side swap handler is not in the source
slice.  Spec 4.4: fixed rate 1 to 10; money to coins requires amount at most
the primary balance, debits primary and credits coins at the rate; coins to
money requires amount at most the coin balance, debits coins and credits
primary at amount divided by the rate; each leg is recorded as a swap-tagged
transaction. -/
def walletSwap (w : WalletState) (amount : Rat) (dir : SwapDirection) :
    Option WalletState :=
  if amount ≤ 0 then none
  else
    match dir with
    | .moneyToCoins =>
      if amount ≤ w.balance then
        some { balance := w.balance - amount
               coins := w.coins + amount * swapRate
               transactions :=
                 ⟨amount * swapRate, .swapLeg⟩ :: ⟨-amount, .swapLeg⟩ :: w.transactions }
      else none
    | .coinsToMoney =>
      if amount ≤ w.coins then
        some { balance := w.balance + amount / swapRate
               coins := w.coins - amount
               transactions :=
                 ⟨amount / swapRate, .swapLeg⟩ :: ⟨-amount, .swapLeg⟩ :: w.transactions }
      else none

/-- Client guard followed by the server swap; on any rejection the wallet is
unchanged and the action records which condition fired. -/
def swapFlow (w : WalletState) (amount : Rat) (dir : SwapDirection) :
    WalletState × SwapAction :=
  match handleSwap amount w.balance w.coins dir with
  | .submit a f t =>
    match walletSwap w a dir with
    | some w1 => (w1, .submit a f t)
    | none => (w, .submit a f t)
  | act => (w, act)

/-- The challenge status enumeration (`open` is spelled `openSt`). -/
inductive ChallengeStatus
  | pending
  | openSt
  | active
  | pendingAdmin
  | completed
  | cancelled
  | disputed
deriving DecidableEq, Repr

/-- A peer challenge, restricted to the fields the escrow flow touches. -/
structure Challenge where
  challengerId : String
  stake : Rat
  status : ChallengeStatus
deriving DecidableEq, Repr

/-- The status the client decline mutation PATCHes onto the challenge
(src/unnamed/part_002, lines 199-219). -/
def declineRequestStatus : String := "cancelled"

/-- Modelled from the spec: the server-side challenge create handler is not
in the source slice.  Spec 4.5: create validates the stake and produces a
`pending` peer challenge, escrowing the stake — debit the challenger balance
and record an escrow-tagged transaction. -/
def createPeerChallenge (w : WalletState) (challengerId : String) (stake : Rat) :
    Option (Challenge × WalletState) :=
  if 0 < stake ∧ stake ≤ w.balance then
    some ({ challengerId := challengerId, stake := stake, status := .pending },
          { balance := w.balance - stake
            coins := w.coins
            transactions := ⟨-stake, .challengeEscrow⟩ :: w.transactions })
  else none

/-- Modelled from the spec: the server-side decline handler is not in the
source slice.  Spec 4.5: decline transitions `pending` to `cancelled` and
must release the escrowed stake back to the challenger, reversing the escrow
transaction. -/
def declineChallenge (ch : Challenge) (w : WalletState) :
    Option (Challenge × WalletState) :=
  if ch.status = .pending then
    some ({ ch with status := .cancelled },
          { balance := w.balance + ch.stake
            coins := w.coins
            transactions := ⟨ch.stake, .escrowReversal⟩ :: w.transactions })
  else none

/-- A notification row, restricted to the columns the handlers touch. -/
structure NotificationRec where
  id : String
  userId : String
  read : Bool
deriving DecidableEq, Repr

/-- The notifications table. -/
abbrev NotificationDb := List NotificationRec

/-- The ownership check both handlers run first (src/unnamed/part_000, lines
97-105 and 172-180): select the row whose id and owning user both match. -/
def findOwnedNotification (db : NotificationDb) (nid uid : String) :
    Option NotificationRec :=
  db.find? (fun n => n.id == nid && n.userId == uid)

/-- HTTP outcome of a notification mutation. -/
inductive ApiStatus
  | ok200
  | notFound404
deriving DecidableEq, Repr

/-- Modelled from the spec: `notificationService.markAsRead` (the
notification system module is not in the source slice) — flips the read flag
on the row with the given id. -/
def serviceMarkAsRead (db : NotificationDb) (nid : String) : NotificationDb :=
  db.map (fun n => if n.id == nid then { n with read := true } else n)

/-- Translation of the `PUT /api/notifications/:id/read` handler
(src/unnamed/part_000, lines 91-114): 404 with no mutation unless a row with
this id belongs to the requesting user, else mark it read. -/
def markReadHandler (db : NotificationDb) (uid nid : String) :
    ApiStatus × NotificationDb :=
  match findOwnedNotification db nid uid with
  | none => (.notFound404, db)
  | some _ => (.ok200, serviceMarkAsRead db nid)

/-- Translation of the `DELETE /api/notifications/:id` handler
(src/unnamed/part_000, lines 166-189): 404 with no mutation unless a row with
this id belongs to the requesting user, else delete exactly the owned row. -/
def deleteNotificationHandler (db : NotificationDb) (uid nid : String) :
    ApiStatus × NotificationDb :=
  match findOwnedNotification db nid uid with
  | none => (.notFound404, db)
  | some _ => (.ok200, db.filter (fun n => !(n.id == nid && n.userId == uid)))

/-! ### Helper lemmas -/

theorem truthyStr_idem {o : Option String} {s : String}
    (h : truthyStr o = some s) : truthyStr (some s) = some s := by
  rcases o with _ | t
  · simp [truthyStr] at h
  · by_cases ht : t = ""
    · simp [truthyStr, ht] at h
    · simp [truthyStr, ht] at h
      subst h
      simp [truthyStr, ht]

theorem applyTelegram_id (u : StoredUser) (tid tun : String) :
    (applyTelegram u tid tun).id = u.id := rfl

theorem find?_cons_pos {α : Type} (p : α → Bool) (a : α) (l : List α)
    (h : p a = true) : (a :: l).find? p = some a := by
  simp [List.find?, h]

theorem find?_cons_neg {α : Type} (p : α → Bool) (a : α) (l : List α)
    (h : p a = false) : (a :: l).find? p = l.find? p := by
  simp [List.find?, h]

theorem find?_map_applyTelegram (db : Db) (uid tid tun : String) (u : StoredUser)
    (h : db.find? (fun v => v.id == uid) = some u) :
    (db.map (fun v => if v.id == uid then applyTelegram v tid tun else v)).find?
      (fun v => v.id == uid) = some (applyTelegram u tid tun) := by
  induction db with
  | nil => simp at h
  | cons a l ih =>
    by_cases ha : (a.id == uid) = true
    · rw [find?_cons_pos (fun v : StoredUser => v.id == uid) a l ha] at h
      injection h with h
      subst h
      rw [List.map_cons, if_pos ha]
      exact find?_cons_pos (fun v : StoredUser => v.id == uid) _ _ ha
    · rw [Bool.not_eq_true] at ha
      rw [find?_cons_neg (fun v : StoredUser => v.id == uid) a l ha] at h
      rw [List.map_cons, if_neg (by simp [ha]),
        find?_cons_neg (fun v : StoredUser => v.id == uid) a _ ha]
      exact ih h

theorem map_applyTelegram_of_no_match (db : Db) (uid tid tun : String)
    (h : ∀ v ∈ db, (v.id == uid) = false) :
    db.map (fun v => if v.id == uid then applyTelegram v tid tun else v) = db := by
  induction db with
  | nil => rfl
  | cons a l ih =>
    have ha : (a.id == uid) = false := h a (List.mem_cons_self a l)
    rw [List.map_cons, if_neg (by simp [ha]),
      ih (fun v hv => h v (List.mem_cons_of_mem a hv))]

theorem any_eq_false_of_find?_eq_none (db : Db) (p : StoredUser → Bool)
    (h : db.find? p = none) : db.any p = false := by
  rw [List.find?_eq_none] at h
  simp only [List.any_eq_false]
  intro v hv
  exact h v hv

/-! ### Claim theorems -/

/-- C9: the initials-fallback function splits the email local-part on runs of
non-alphanumeric characters; with two or more tokens it returns the uppercased
first letters of the first two, with one token its first two characters
uppercased, and with an empty local-part or missing email the empty string;
`jo.doe@x.com` yields `JD`, `doe@x.com` yields `DO`, `@x.com` and the empty or
missing email yield the empty string; and the empty-string result is replaced
by the literal "User" when a new user is constructed. -/
theorem getInitialsFromEmail_correct :
    (∀ e, getInitialsFromEmail e = initialsSpec e) ∧
    getInitialsFromEmail (some "jo.doe@x.com") = "JD" ∧
    getInitialsFromEmail (some "doe@x.com") = "DO" ∧
    getInitialsFromEmail (some "@x.com") = "" ∧
    getInitialsFromEmail (some "") = "" ∧
    getInitialsFromEmail none = "" ∧
    (upsertPrivyUser
        { userId := some "u9", sub := none, email := some "@x.com",
          given_name := none, name := none, family_name := none,
          picture := none, linkedAccounts := none }
        []).map (fun p => p.1.firstName) = some "User" := by
  refine ⟨?_, by decide, by decide, by decide, by decide, rfl, by decide⟩
  intro e
  rcases e with _ | s
  · rfl
  · by_cases hs : s = ""
    · subst hs; decide
    · simp only [getInitialsFromEmail, initialsSpec, if_neg hs]
      rcases emailTokensChars (localPartChars s.toList) with _ | ⟨p0, _ | ⟨p1, rest⟩⟩
      · simp
      · simp
      · simp

/-- C10: a request to mark a notification read or to delete it, whose target
id does not exist or does not belong to the requesting user, answers 404 and
performs no mutation — only the owner can mark read or delete. -/
theorem notification_mutations_owner_only
    (db : NotificationDb) (uid nid : String)
    (h : ∀ n ∈ db, n.id = nid → n.userId ≠ uid) :
    markReadHandler db uid nid = (.notFound404, db) ∧
    deleteNotificationHandler db uid nid = (.notFound404, db) := by
  have hf : findOwnedNotification db nid uid = none := by
    unfold findOwnedNotification
    rw [List.find?_eq_none]
    intro n hn
    simp only [Bool.and_eq_true, beq_iff_eq, not_and]
    intro h1 h2
    exact h n hn h1 h2
  exact ⟨by simp [markReadHandler, hf], by simp [deleteNotificationHandler, hf]⟩

theorem notification_mutations_owner_only_witness :
    markReadHandler [{ id := "n1", userId := "alice", read := false }] "bob" "n1" =
      (.notFound404, [{ id := "n1", userId := "alice", read := false }]) ∧
    deleteNotificationHandler [{ id := "n1", userId := "alice", read := false }] "bob" "n1" =
      (.notFound404, [{ id := "n1", userId := "alice", read := false }]) :=
  notification_mutations_owner_only
    [{ id := "n1", userId := "alice", read := false }] "bob" "n1" (by decide)

/-- C5: a withdraw request with positive amount at most the current primary
balance is submitted and decreases the primary balance by that amount with a
withdrawal-tagged transaction; any other amount is rejected, no withdrawal
request is issued, and the balance is unchanged. -/
theorem withdraw_flow_correct (w : WalletState) (a : Rat) :
    (0 < a → a ≤ w.balance →
      withdrawFlow w a =
        ({ balance := w.balance - a, coins := w.coins,
           transactions := ⟨-a, .withdrawal⟩ :: w.transactions }, true)) ∧
    (¬ (0 < a ∧ a ≤ w.balance) →
      handleWithdraw a w.balance = .rejectInvalidAmount ∧
      withdrawFlow w a = (w, false)) := by
  constructor
  · intro h1 h2
    simp [withdrawFlow, handleWithdraw, walletWithdraw, h1, h2]
  · intro h
    constructor
    · simp [handleWithdraw, h]
    · simp [withdrawFlow, handleWithdraw, h]

theorem withdraw_flow_correct_witness :
    (withdrawFlow { balance := 100, coins := 0, transactions := [] } 150 =
      ({ balance := 100, coins := 0, transactions := [] }, false)) ∧
    (withdrawFlow { balance := 100, coins := 0, transactions := [] } 40 =
      ({ balance := 60, coins := 0, transactions := [⟨-40, .withdrawal⟩] }, true)) := by
  constructor
  · exact ((withdraw_flow_correct { balance := 100, coins := 0, transactions := [] } 150).2
      (by norm_num)).2
  · have h := (withdraw_flow_correct { balance := 100, coins := 0, transactions := [] } 40).1
      (by norm_num) (by norm_num)
    norm_num at h
    exact h

/-- C4: the swap uses the fixed 1-to-10 rate: a positive amount at most the
source-side balance is submitted with the direction's currency pair, debiting
the source and crediting 10 times the amount in coins (money to coins) or a
tenth of the amount in money (coins to money); an amount exceeding the
source-side balance is rejected with the insufficient condition and no
request is issued. -/
theorem swap_flow_correct (w : WalletState) (a : Rat) :
    (0 < a → a ≤ w.balance →
      swapFlow w a .moneyToCoins =
        ({ balance := w.balance - a, coins := w.coins + a * 10,
           transactions := ⟨a * 10, .swapLeg⟩ :: ⟨-a, .swapLeg⟩ :: w.transactions },
         .submit a "money" "coins")) ∧
    (0 < a → a ≤ w.coins →
      swapFlow w a .coinsToMoney =
        ({ balance := w.balance + a / 10, coins := w.coins - a,
           transactions := ⟨a / 10, .swapLeg⟩ :: ⟨-a, .swapLeg⟩ :: w.transactions },
         .submit a "coins" "money")) ∧
    (0 ≤ w.balance → w.balance < a →
      swapFlow w a .moneyToCoins = (w, .rejectInsufficientBalance)) ∧
    (0 ≤ w.coins → w.coins < a →
      swapFlow w a .coinsToMoney = (w, .rejectInsufficientCoins)) := by
  refine ⟨?_, ?_, ?_, ?_⟩
  · intro h1 h2
    simp [swapFlow, handleSwap, walletSwap, swapRate, not_le.mpr h1, not_lt.mpr h2, h2]
  · intro h1 h2
    simp [swapFlow, handleSwap, walletSwap, swapRate, not_le.mpr h1, not_lt.mpr h2, h2]
  · intro h0 h1
    have ha : ¬ a ≤ 0 := not_le.mpr (lt_of_le_of_lt h0 h1)
    simp [swapFlow, handleSwap, ha, h1]
  · intro h0 h1
    have ha : ¬ a ≤ 0 := not_le.mpr (lt_of_le_of_lt h0 h1)
    simp [swapFlow, handleSwap, ha, h1]

theorem swap_flow_correct_witness :
    (swapFlow { balance := 100, coins := 0, transactions := [] } 10 .moneyToCoins =
      ({ balance := 90, coins := 100,
         transactions := [⟨100, .swapLeg⟩, ⟨-10, .swapLeg⟩] }, .submit 10 "money" "coins")) ∧
    (swapFlow { balance := 0, coins := 50, transactions := [] } 50 .coinsToMoney =
      ({ balance := 5, coins := 0,
         transactions := [⟨5, .swapLeg⟩, ⟨-50, .swapLeg⟩] }, .submit 50 "coins" "money")) ∧
    (swapFlow { balance := 5, coins := 0, transactions := [] } 10 .moneyToCoins =
      ({ balance := 5, coins := 0, transactions := [] }, .rejectInsufficientBalance)) := by
  refine ⟨?_, ?_, ?_⟩
  · have h := (swap_flow_correct { balance := 100, coins := 0, transactions := [] } 10).1
      (by norm_num) (by norm_num)
    norm_num at h
    exact h
  · have h := ((swap_flow_correct { balance := 0, coins := 50, transactions := [] } 50).2.1
      (by norm_num) (by norm_num))
    norm_num at h
    exact h
  · exact (swap_flow_correct { balance := 5, coins := 0, transactions := [] } 10).2.2.1
      (by norm_num) (by norm_num)

/-- C2: creating a peer challenge with stake S from primary balance B escrows
the stake — the balance becomes B minus S with an escrow-tagged transaction —
and a subsequent decline (pending to cancelled) fully reverses the escrow,
restoring the balance to exactly B. -/
theorem challenge_escrow_round_trip (w : WalletState) (cid : String) (s : Rat)
    (h1 : 0 < s) (h2 : s ≤ w.balance) :
    ∃ ch w1 ch1 w2,
      createPeerChallenge w cid s = some (ch, w1) ∧
      w1.balance = w.balance - s ∧
      w1.transactions.head? = some ⟨-s, .challengeEscrow⟩ ∧
      declineChallenge ch w1 = some (ch1, w2) ∧
      ch1.status = .cancelled ∧
      w2.transactions.head? = some ⟨s, .escrowReversal⟩ ∧
      w2.balance = w.balance := by
    refine ⟨{ challengerId := cid, stake := s, status := .pending },
      { balance := w.balance - s, coins := w.coins,
        transactions := ⟨-s, .challengeEscrow⟩ :: w.transactions },
      { challengerId := cid, stake := s, status := .cancelled },
      { balance := w.balance - s + s, coins := w.coins,
        transactions := ⟨s, .escrowReversal⟩ :: ⟨-s, .challengeEscrow⟩ :: w.transactions },
      ?_, rfl, rfl, ?_, rfl, rfl, ?_⟩
    · simp [createPeerChallenge, h1, h2]
    · simp [declineChallenge]
    · simp

theorem challenge_escrow_round_trip_witness :
    ∃ ch w1 ch1 w2,
      createPeerChallenge { balance := 100, coins := 0, transactions := [] } "u" 30 =
        some (ch, w1) ∧
      w1.balance = 70 ∧
      w1.transactions.head? = some ⟨-30, .challengeEscrow⟩ ∧
      declineChallenge ch w1 = some (ch1, w2) ∧
      ch1.status = .cancelled ∧
      w2.transactions.head? = some ⟨30, .escrowReversal⟩ ∧
      w2.balance = 100 := by
  obtain ⟨ch, w1, ch1, w2, hc, hb, ht, hd, hs, hr, hfin⟩ := challenge_escrow_round_trip
    { balance := 100, coins := 0, transactions := [] } "u" 30 (by norm_num) (by norm_num)
  refine ⟨ch, w1, ch1, w2, hc, ?_, ht, hd, hs, hr, ?_⟩
  · rw [hb]; norm_num
  · rw [hfin]

/-- C3: the middleware terminates in exactly one of: session accept (session
identity present without a truthy bearer header), 401 missing-authorization
(no truthy header and no session identity), 401 invalid-token (verification
fails or yields no truthy subject identifier), a 500 rejection — distinct
from the 401 invalid-credential rejections — when the upsert collaborator
returns no user or throws, and token accept when it resolves a user.  The
six disjuncts below have mutually exclusive guards covering all inputs. -/
theorem privy_auth_middleware_cases
    (verify : String → Option VerifiedClaims)
    (upsert : VerifiedClaims → Db → UpsertOutcome)
    (req : AuthRequest) (db : Db) :
    (∃ su, truthyStr req.authHeader = none ∧ req.isAuthenticated = true ∧
       req.sessionUser = some su ∧
       PrivyAuthMiddleware verify upsert req db = (.accept su, db)) ∨
    (truthyStr req.authHeader = none ∧
       (req.isAuthenticated = false ∨ req.sessionUser = none) ∧
       PrivyAuthMiddleware verify upsert req db =
         (.reject 401 "Authorization header missing", db)) ∨
    (∃ h, truthyStr req.authHeader = some h ∧
       (verify (replaceFirst h "Bearer ") = none ∨
         ∃ c, verify (replaceFirst h "Bearer ") = some c ∧
           truthyStr (jsOr c.userId c.sub) = none) ∧
       PrivyAuthMiddleware verify upsert req db =
         (.reject 401 "Invalid token or user ID not found", db)) ∨
    (∃ h c uid db1, truthyStr req.authHeader = some h ∧
       verify (replaceFirst h "Bearer ") = some c ∧
       truthyStr (jsOr c.userId c.sub) = some uid ∧
       upsert c db = .noUser db1 ∧
       PrivyAuthMiddleware verify upsert req db =
         (.reject 500 "Failed to create or retrieve user", db1)) ∨
    (∃ h c uid db1, truthyStr req.authHeader = some h ∧
       verify (replaceFirst h "Bearer ") = some c ∧
       truthyStr (jsOr c.userId c.sub) = some uid ∧
       upsert c db = .threw db1 ∧
       PrivyAuthMiddleware verify upsert req db =
         (.reject 500 "Internal server error during authentication", db1)) ∨
    (∃ h c uid u db1, truthyStr req.authHeader = some h ∧
       verify (replaceFirst h "Bearer ") = some c ∧
       truthyStr (jsOr c.userId c.sub) = some uid ∧
       upsert c db = .ok u db1 ∧
       PrivyAuthMiddleware verify upsert req db = (.accept (identityOf u), db1)) := by
  rcases hh : truthyStr req.authHeader with _ | h
  · rcases ha : req.isAuthenticated with _ | _
    · refine Or.inr (Or.inl ⟨rfl, Or.inl rfl, ?_⟩)
      simp [PrivyAuthMiddleware, hh, ha]
    · rcases hsu : req.sessionUser with _ | su
      · refine Or.inr (Or.inl ⟨rfl, Or.inr rfl, ?_⟩)
        simp [PrivyAuthMiddleware, hh, ha, hsu]
      · refine Or.inl ⟨su, rfl, rfl, rfl, ?_⟩
        simp [PrivyAuthMiddleware, hh, ha, hsu]
  · rcases hv : verify (replaceFirst h "Bearer ") with _ | c
    · refine Or.inr (Or.inr (Or.inl ⟨h, rfl, Or.inl hv, ?_⟩))
      simp [PrivyAuthMiddleware, tokenPhase, hh, hv]
    · rcases hu : truthyStr (jsOr c.userId c.sub) with _ | uid
      · refine Or.inr (Or.inr (Or.inl ⟨h, rfl, Or.inr ⟨c, hv, hu⟩, ?_⟩))
        simp [PrivyAuthMiddleware, tokenPhase, hh, hv, hu]
      · cases hup : upsert c db with
        | ok u db1 =>
          refine Or.inr (Or.inr (Or.inr (Or.inr (Or.inr
            ⟨h, c, uid, u, db1, rfl, hv, hu, hup, ?_⟩))))
          simp [PrivyAuthMiddleware, tokenPhase, hh, hv, hu, hup]
        | noUser db1 =>
          refine Or.inr (Or.inr (Or.inr (Or.inl ⟨h, c, uid, db1, rfl, hv, hu, hup, ?_⟩)))
          simp [PrivyAuthMiddleware, tokenPhase, hh, hv, hu, hup]
        | threw db1 =>
          refine Or.inr (Or.inr (Or.inr (Or.inr (Or.inl
            ⟨h, c, uid, db1, rfl, hv, hu, hup, ?_⟩))))
          simp [PrivyAuthMiddleware, tokenPhase, hh, hv, hu, hup]

/-- C8 counterexample: two requests failing authentication for different
internal reasons — missing credential versus invalid token — receive
distinguishable responses: both carry status 401 but the bodies differ, so
the caller can tell which cause occurred. -/
theorem auth_failure_responses_distinguishable :
    (PrivyAuthMiddleware (fun _ => none) upsertOutcomeOf
        { authHeader := none, isAuthenticated := false, sessionUser := none } []).1 =
      .reject 401 "Authorization header missing" ∧
    (PrivyAuthMiddleware (fun _ => none) upsertOutcomeOf
        { authHeader := some "Bearer bad", isAuthenticated := false, sessionUser := none } []).1 =
      .reject 401 "Invalid token or user ID not found" ∧
    (PrivyAuthMiddleware (fun _ => none) upsertOutcomeOf
        { authHeader := none, isAuthenticated := false, sessionUser := none } []).1 ≠
      (PrivyAuthMiddleware (fun _ => none) upsertOutcomeOf
        { authHeader := some "Bearer bad", isAuthenticated := false, sessionUser := none } []).1 := by
  refine ⟨rfl, ?_, ?_⟩ <;> decide

/-- C8 amended: authentication failures uniformly carry status 401; the two
token-stage causes (verification failure, missing subject identifier) are
indistinguishable — one fixed response for the whole class — but the
missing-credential failure carries its own fixed 401 response whose body
differs from the token-stage one. -/
theorem auth_failure_responses_uniform
    (verify : String → Option VerifiedClaims)
    (upsert : VerifiedClaims → Db → UpsertOutcome)
    (req : AuthRequest) (db : Db) :
    (truthyStr req.authHeader = none →
      (req.isAuthenticated = false ∨ req.sessionUser = none) →
      PrivyAuthMiddleware verify upsert req db =
        (.reject 401 "Authorization header missing", db)) ∧
    (∀ h, truthyStr req.authHeader = some h →
      (verify (replaceFirst h "Bearer ") = none ∨
        ∃ c, verify (replaceFirst h "Bearer ") = some c ∧
          truthyStr (jsOr c.userId c.sub) = none) →
      PrivyAuthMiddleware verify upsert req db =
        (.reject 401 "Invalid token or user ID not found", db)) := by
  constructor
  · intro hh hs
    rcases hs with hs | hs
    · simp [PrivyAuthMiddleware, hh, hs]
    · rcases ha : req.isAuthenticated with _ | _
      · simp [PrivyAuthMiddleware, hh, ha]
      · simp [PrivyAuthMiddleware, hh, ha, hs]
  · intro h hh hfail
    rcases hfail with hv | ⟨c, hv, hu⟩
    · simp [PrivyAuthMiddleware, tokenPhase, hh, hv]
    · simp [PrivyAuthMiddleware, tokenPhase, hh, hv, hu]

theorem no_match_of_getUser_none (db : Db) (uid : String)
    (hu : getUser db uid = none) : ∀ v ∈ db, (v.id == uid) = false := by
  unfold getUser at hu
  rw [List.find?_eq_none] at hu
  intro v hv
  have hn := hu v hv
  revert hn
  cases v.id == uid <;> simp

theorem getUser_cons_self (u : StoredUser) (db : Db) (uid : String) (h : u.id = uid) :
    getUser (u :: db) uid = some u := by
  unfold getUser
  exact find?_cons_pos (fun v : StoredUser => v.id == uid) u db (by simp [h])

theorem telegramStep_writes
    (c : VerifiedClaims) (uid : String) (u : StoredUser) (db : Db)
    (acc : LinkedAccount) (tid : String)
    (hacc : firstTelegramAccount c = some acc)
    (htid : truthyStr acc.telegramUserId = some tid)
    (hnone : truthyStr u.telegramId = none)
    (hfind : getUser db uid = some u) :
    telegramStep c uid u db =
      some (applyTelegram u tid (jsOrStr acc.telegramUsername ("tg_" ++ tid)),
        db.map (fun v => if v.id == uid then
          applyTelegram v tid (jsOrStr acc.telegramUsername ("tg_" ++ tid)) else v)) := by
  unfold getUser at hfind
  have hmap := find?_map_applyTelegram db uid tid
    (jsOrStr acc.telegramUsername ("tg_" ++ tid)) u hfind
  simp only [telegramStep, updateUserTelegramInfo, hacc, htid, hnone]
  rw [hmap]

theorem upsertPrivyUser_found_write
    (c : VerifiedClaims) (db : Db) (uid : String) (u : StoredUser)
    (acc : LinkedAccount) (tid : String)
    (hid : jsOr c.userId c.sub = some uid)
    (hgu : getUser db uid = some u)
    (hacc : firstTelegramAccount c = some acc)
    (htid : truthyStr acc.telegramUserId = some tid)
    (hnone : truthyStr u.telegramId = none) :
    upsertPrivyUser c db =
      some (applyTelegram u tid (jsOrStr acc.telegramUsername ("tg_" ++ tid)),
        db.map (fun v => if v.id == uid then
          applyTelegram v tid (jsOrStr acc.telegramUsername ("tg_" ++ tid)) else v)) := by
  have hts := telegramStep_writes c uid u db acc tid hacc htid hnone hgu
  simp [upsertPrivyUser, hid, hgu, hts]

theorem upsertPrivyUser_found_no_write
    (c : VerifiedClaims) (db : Db) (uid : String) (u : StoredUser)
    (hid : jsOr c.userId c.sub = some uid)
    (hgu : getUser db uid = some u)
    (hskip : firstTelegramAccount c = none ∨
      (∃ acc, firstTelegramAccount c = some acc ∧ truthyStr acc.telegramUserId = none) ∨
      (∃ tid0, truthyStr u.telegramId = some tid0)) :
    upsertPrivyUser c db = some (u, db) := by
  rcases hskip with h1 | ⟨acc, h1, h2⟩ | ⟨tid0, h1⟩
  · simp [upsertPrivyUser, hid, hgu, telegramStep, h1]
  · simp [upsertPrivyUser, hid, hgu, telegramStep, h1, h2]
  · rcases hacc2 : firstTelegramAccount c with _ | acc
    · simp [upsertPrivyUser, hid, hgu, telegramStep, hacc2]
    · rcases htid2 : truthyStr acc.telegramUserId with _ | tid
      · simp [upsertPrivyUser, hid, hgu, telegramStep, hacc2, htid2]
      · simp [upsertPrivyUser, hid, hgu, telegramStep, hacc2, htid2, h1]

theorem upsertPrivyUser_creation_skip
    (c : VerifiedClaims) (db : Db) (uid : String)
    (hid : jsOr c.userId c.sub = some uid)
    (hu : getUser db uid = none)
    (he : getUserByEmail db (claimsEmail c uid) = none)
    (hskip : firstTelegramAccount c = none ∨
      (∃ acc, firstTelegramAccount c = some acc ∧ truthyStr acc.telegramUserId = none)) :
    upsertPrivyUser c db =
      some (newUserFromClaims c uid (claimsEmail c uid),
        newUserFromClaims c uid (claimsEmail c uid) :: db) := by
  have hany : db.any
      (fun v => v.id == (newUserFromClaims c uid (claimsEmail c uid)).id) = false :=
    any_eq_false_of_find?_eq_none db _ hu
  rcases hskip with h1 | ⟨acc, h1, h2⟩
  · simp [upsertPrivyUser, hid, hu, he, storageUpsertUser, hany, telegramStep, h1]
  · simp [upsertPrivyUser, hid, hu, he, storageUpsertUser, hany, telegramStep, h1, h2]

theorem upsertPrivyUser_creation_telegram
    (c : VerifiedClaims) (db : Db) (uid : String) (acc : LinkedAccount) (tid : String)
    (hid : jsOr c.userId c.sub = some uid)
    (hu : getUser db uid = none)
    (he : getUserByEmail db (claimsEmail c uid) = none)
    (hacc : firstTelegramAccount c = some acc)
    (htid : truthyStr acc.telegramUserId = some tid) :
    upsertPrivyUser c db =
      some (applyTelegram (newUserFromClaims c uid (claimsEmail c uid)) tid
          (jsOrStr acc.telegramUsername ("tg_" ++ tid)),
        applyTelegram (newUserFromClaims c uid (claimsEmail c uid)) tid
          (jsOrStr acc.telegramUsername ("tg_" ++ tid)) :: db) := by
  have hany : db.any
      (fun v => v.id == (newUserFromClaims c uid (claimsEmail c uid)).id) = false :=
    any_eq_false_of_find?_eq_none db _ hu
  have hts := telegramStep_writes c uid (newUserFromClaims c uid (claimsEmail c uid))
    (newUserFromClaims c uid (claimsEmail c uid) :: db) acc tid hacc htid rfl
    (getUser_cons_self _ db uid rfl)
  rw [List.map_cons, if_pos (show ((newUserFromClaims c uid (claimsEmail c uid)).id == uid)
        = true by simp [newUserFromClaims]),
    map_applyTelegram_of_no_match db uid tid _ (no_match_of_getUser_none db uid hu)] at hts
  simp [upsertPrivyUser, hid, hu, he, storageUpsertUser, hany, hts]

/-- C6: for claims whose subject id matches no existing user but whose real or
synthetic email matches an existing user record, the upsert returns that
existing user and creates no new record — the store is unchanged. -/
theorem upsert_reconciles_by_email
    (c : VerifiedClaims) (db : Db) (uid : String) (u : StoredUser)
    (hid : jsOr c.userId c.sub = some uid)
    (hu : getUser db uid = none)
    (he : getUserByEmail db (claimsEmail c uid) = some u) :
    upsertPrivyUser c db = some (u, db) := by
  simp [upsertPrivyUser, hid, hu, he]

theorem upsert_reconciles_by_email_witness :
    upsertPrivyUser
      { userId := some "did:x", sub := none, email := some "a@x.com",
        given_name := none, name := none, family_name := none,
        picture := none, linkedAccounts := none }
      [{ id := "other", email := "a@x.com", password := "p", firstName := "E",
         lastName := "F", username := "e", profileImageUrl := none,
         telegramId := none, telegramUsername := none, isTelegramUser := false,
         isAdmin := false }] =
    some ({ id := "other", email := "a@x.com", password := "p", firstName := "E",
            lastName := "F", username := "e", profileImageUrl := none,
            telegramId := none, telegramUsername := none, isTelegramUser := false,
            isAdmin := false },
          [{ id := "other", email := "a@x.com", password := "p", firstName := "E",
             lastName := "F", username := "e", profileImageUrl := none,
             telegramId := none, telegramUsername := none, isTelegramUser := false,
             isAdmin := false }]) :=
  upsert_reconciles_by_email _ _ "did:x" _ (by decide) (by decide) (by decide)

/-- C7: for claims with a novel subject id and no matching email, the upsert
creates exactly one new user — the store becomes that row consed onto the old
store — and a repeated call with identical claims creates zero additional
users and performs no further write: it returns the same user and leaves the
store unchanged. -/
theorem upsert_creates_once_idempotent
    (c : VerifiedClaims) (db : Db) (uid : String)
    (hid : jsOr c.userId c.sub = some uid)
    (hu : getUser db uid = none)
    (he : getUserByEmail db (claimsEmail c uid) = none) :
    ∃ u db1, upsertPrivyUser c db = some (u, db1) ∧
      db1 = u :: db ∧ u.id = uid ∧
      upsertPrivyUser c db1 = some (u, db1) := by
  rcases hacc : firstTelegramAccount c with _ | acc
  · refine ⟨newUserFromClaims c uid (claimsEmail c uid), _,
      upsertPrivyUser_creation_skip c db uid hid hu he (Or.inl hacc), rfl, rfl, ?_⟩
    exact upsertPrivyUser_found_no_write c _ uid _ hid
      (getUser_cons_self _ db uid rfl) (Or.inl hacc)
  · rcases htid : truthyStr acc.telegramUserId with _ | tid
    · refine ⟨newUserFromClaims c uid (claimsEmail c uid), _,
        upsertPrivyUser_creation_skip c db uid hid hu he (Or.inr ⟨acc, hacc, htid⟩),
        rfl, rfl, ?_⟩
      exact upsertPrivyUser_found_no_write c _ uid _ hid
        (getUser_cons_self _ db uid rfl) (Or.inr (Or.inl ⟨acc, hacc, htid⟩))
    · refine ⟨applyTelegram (newUserFromClaims c uid (claimsEmail c uid)) tid
        (jsOrStr acc.telegramUsername ("tg_" ++ tid)), _,
        upsertPrivyUser_creation_telegram c db uid acc tid hid hu he hacc htid,
        rfl, rfl, ?_⟩
      exact upsertPrivyUser_found_no_write c _ uid _ hid
        (getUser_cons_self _ db uid rfl)
        (Or.inr (Or.inr ⟨tid, truthyStr_idem htid⟩))

theorem upsert_creates_once_idempotent_witness :
    ∃ u db1,
      upsertPrivyUser
        { userId := some "did:n", sub := none, email := some "jo.doe@x.com",
          given_name := none, name := none, family_name := none,
          picture := none, linkedAccounts := none } [] = some (u, db1) ∧
      db1 = u :: [] ∧ u.id = "did:n" ∧
      upsertPrivyUser
        { userId := some "did:n", sub := none, email := some "jo.doe@x.com",
          given_name := none, name := none, family_name := none,
          picture := none, linkedAccounts := none } db1 = some (u, db1) :=
  upsert_creates_once_idempotent _ [] "did:n" (by decide) (by decide) (by decide)

/-- C1 counterexample: a VerifiedClaims object carrying a telegram linked
account with a telegramUserId, resolved by email reconciliation to a user
with no telegramId recorded: the call performs no Telegram write — the user
is returned with `telegramId` still absent and the store unchanged — so the
linkage step is not performed "regardless of how that user was resolved". -/
theorem telegram_linkage_skipped_on_email_path :
    upsertPrivyUser
      { userId := some "did:new", sub := none, email := some "a@x.com",
        given_name := some "Al", name := none, family_name := none,
        picture := none,
        linkedAccounts := some
          [{ type := "telegram", telegramUserId := some "555", telegramUsername := none }] }
      [{ id := "other", email := "a@x.com", password := "p", firstName := "E",
         lastName := "F", username := "e", profileImageUrl := none,
         telegramId := none, telegramUsername := none, isTelegramUser := false,
         isAdmin := false }] =
    some ({ id := "other", email := "a@x.com", password := "p", firstName := "E",
            lastName := "F", username := "e", profileImageUrl := none,
            telegramId := none, telegramUsername := none, isTelegramUser := false,
            isAdmin := false },
          [{ id := "other", email := "a@x.com", password := "p", firstName := "E",
             lastName := "F", username := "e", profileImageUrl := none,
             telegramId := none, telegramUsername := none, isTelegramUser := false,
             isAdmin := false }]) := by
  decide

/-- C1 amended: when the first telegram-typed linked account in the claims
carries a truthy telegramUserId, the upsert performs the Telegram linkage
step on a user resolved by id or newly created — if the user has no
telegramId it writes the telegram id, a username falling back to
`tg_<externalid>`, and the linked flag; if a telegramId is already recorded
the call performs no write — while a user reconciled by email is returned
as-is, without the linkage step. -/
theorem upsert_telegram_linkage
    (c : VerifiedClaims) (db : Db) (uid : String) (acc : LinkedAccount) (tid : String)
    (hid : jsOr c.userId c.sub = some uid)
    (hacc : firstTelegramAccount c = some acc)
    (htid : truthyStr acc.telegramUserId = some tid) :
    (∀ u, getUser db uid = some u → truthyStr u.telegramId = none →
      upsertPrivyUser c db =
        some (applyTelegram u tid (jsOrStr acc.telegramUsername ("tg_" ++ tid)),
          db.map (fun v => if v.id == uid then
            applyTelegram v tid (jsOrStr acc.telegramUsername ("tg_" ++ tid)) else v))) ∧
    (∀ u tid0, getUser db uid = some u → truthyStr u.telegramId = some tid0 →
      upsertPrivyUser c db = some (u, db)) ∧
    (∀ u, getUser db uid = none → getUserByEmail db (claimsEmail c uid) = some u →
      upsertPrivyUser c db = some (u, db)) ∧
    (getUser db uid = none → getUserByEmail db (claimsEmail c uid) = none →
      upsertPrivyUser c db =
        some (applyTelegram (newUserFromClaims c uid (claimsEmail c uid)) tid
            (jsOrStr acc.telegramUsername ("tg_" ++ tid)),
          applyTelegram (newUserFromClaims c uid (claimsEmail c uid)) tid
            (jsOrStr acc.telegramUsername ("tg_" ++ tid)) :: db) ∧
      (applyTelegram (newUserFromClaims c uid (claimsEmail c uid)) tid
        (jsOrStr acc.telegramUsername ("tg_" ++ tid))).telegramId = some tid ∧
      (applyTelegram (newUserFromClaims c uid (claimsEmail c uid)) tid
        (jsOrStr acc.telegramUsername ("tg_" ++ tid))).isTelegramUser = true) := by
  refine ⟨?_, ?_, ?_, ?_⟩
  · intro u hgu hnone
    exact upsertPrivyUser_found_write c db uid u acc tid hid hgu hacc htid hnone
  · intro u tid0 hgu hsome
    exact upsertPrivyUser_found_no_write c db uid u hid hgu (Or.inr (Or.inr ⟨tid0, hsome⟩))
  · intro u hgu hge
    simp [upsertPrivyUser, hid, hgu, hge]
  · intro hgu hge
    exact ⟨upsertPrivyUser_creation_telegram c db uid acc tid hid hgu hge hacc htid,
      rfl, rfl⟩

theorem upsert_telegram_linkage_witness :
    upsertPrivyUser
      { userId := some "did:t", sub := none, email := none,
        given_name := none, name := none, family_name := none,
        picture := none,
        linkedAccounts := some
          [{ type := "telegram", telegramUserId := some "555", telegramUsername := none }] }
      [{ id := "did:t", email := "t@x.com", password := "p", firstName := "T",
         lastName := "U", username := "t", profileImageUrl := none,
         telegramId := none, telegramUsername := none, isTelegramUser := false,
         isAdmin := false }] =
    some ({ id := "did:t", email := "t@x.com", password := "p", firstName := "T",
            lastName := "U", username := "t", profileImageUrl := none,
            telegramId := some "555", telegramUsername := some "tg_555",
            isTelegramUser := true, isAdmin := false },
          [{ id := "did:t", email := "t@x.com", password := "p", firstName := "T",
             lastName := "U", username := "t", profileImageUrl := none,
             telegramId := some "555", telegramUsername := some "tg_555",
             isTelegramUser := true, isAdmin := false }]) := by
  have h := (upsert_telegram_linkage
    { userId := some "did:t", sub := none, email := none,
      given_name := none, name := none, family_name := none,
      picture := none,
      linkedAccounts := some
        [{ type := "telegram", telegramUserId := some "555", telegramUsername := none }] }
    [{ id := "did:t", email := "t@x.com", password := "p", firstName := "T",
       lastName := "U", username := "t", profileImageUrl := none,
       telegramId := none, telegramUsername := none, isTelegramUser := false,
       isAdmin := false }]
    "did:t"
    { type := "telegram", telegramUserId := some "555", telegramUsername := none }
    "555" (by decide) (by decide) (by decide)).1
    { id := "did:t", email := "t@x.com", password := "p", firstName := "T",
      lastName := "U", username := "t", profileImageUrl := none,
      telegramId := none, telegramUsername := none, isTelegramUser := false,
      isAdmin := false } (by decide) (by decide)
  simpa using h

theorem auth_failure_responses_uniform_witness :
    (PrivyAuthMiddleware (fun _ => none) upsertOutcomeOf
        { authHeader := none, isAuthenticated := false, sessionUser := none } [] =
      (.reject 401 "Authorization header missing", [])) ∧
    (PrivyAuthMiddleware (fun _ => none) upsertOutcomeOf
        { authHeader := some "Bearer bad", isAuthenticated := false, sessionUser := none } [] =
      (.reject 401 "Invalid token or user ID not found", [])) :=
  ⟨(auth_failure_responses_uniform (fun _ => none) upsertOutcomeOf
      { authHeader := none, isAuthenticated := false, sessionUser := none } []).1
      rfl (Or.inl rfl),
   (auth_failure_responses_uniform (fun _ => none) upsertOutcomeOf
      { authHeader := some "Bearer bad", isAuthenticated := false, sessionUser := none } []).2
      "Bearer bad" (by decide) (Or.inl rfl)⟩

end Bantah
